import Mathlib

set_option autoImplicit false

/-!
Shallow embedding of the marjoram tagged-union library:
`include/marjoram/eitherImpl.hpp` (raw tagged union with manually
sequenced construction and destruction), `include/marjoram/either.hpp`
(the `ma::Either` wrapper and its right-biased iterators) and
`include/marjoram/lazy.hpp` (the memoizing `ma::Lazy`).

The C++ `EitherImpl` keeps one of two types in shared raw storage with a
discriminant `side`.  The embedding keeps the discriminant as `side` and
models the raw storage as a `Storage` value recording which slot, if any,
currently holds a validly constructed value; reading or destroying a slot
that is not live is undefined behaviour in C++ and is modelled as
`Option.none`.  Constructor and destructor executions of the contained
types are recorded as `Event`s so that lifetime properties (destructor
counts, destroy-before-construct ordering) can be stated.
-/

namespace Marjoram

/-- Discriminant of the union, `enum EitherSide : char \x7b left, right \x7d`
(eitherImpl.hpp:32). -/
inductive EitherSide where
  | left
  | right
  deriving DecidableEq, BEq

/-- Contents of the raw `storage` member of `EitherImpl`
(eitherImpl.hpp:177-178).  At any moment at most one validly constructed
value lives in the shared storage; `dead` means no value's lifetime is
currently active, as after an explicit destructor call and before the next
placement new. -/
inductive Storage (L R : Type) where
  | dead
  | leftVal (v : L)
  | rightVal (v : R)
  deriving DecidableEq

/-- Constructor and destructor executions of the two contained types,
recorded to account for object lifetimes. -/
inductive Event where
  | ctorL
  | dtorL
  | ctorR
  | dtorR
  deriving DecidableEq

/-- The lifetime event of constructing the side `s` value. -/
def ctorOf : EitherSide → Event
  | EitherSide.left => Event.ctorL
  | EitherSide.right => Event.ctorR

/-- The lifetime event of running the destructor of the side `s` value. -/
def dtorOf : EitherSide → Event
  | EitherSide.left => Event.dtorL
  | EitherSide.right => Event.dtorR

/-- The opposite side. -/
def otherSide : EitherSide → EitherSide
  | EitherSide.left => EitherSide.right
  | EitherSide.right => EitherSide.left

/-- State of `marjoram::detail::EitherImpl<Left_t, Right_t>`
(eitherImpl.hpp:37-179): the discriminant `side` plus the shared storage. -/
structure EitherImpl (L R : Type) where
  side : EitherSide
  storage : Storage L R
  deriving DecidableEq

variable {L R E : Type}

/-- Constructor `EitherImpl(LeftSide, Args&&... args)`
(eitherImpl.hpp:42-46): sets `side = left` and placement-news a `Left_t`
from the forwarded arguments.  The C++ code forwards `args` to `Left_t`'s
constructor; the embedding takes that constructor as a function `mk`
applied to the argument pack `a`.  Also yields the construction event. -/
def EitherImpl.constructLeft {α : Type} (mk : α → L) (a : α) :
    EitherImpl L R × List Event :=
  (⟨EitherSide.left, Storage.leftVal (mk a)⟩, [Event.ctorL])

/-- Constructor `EitherImpl(RightSide, Args&&... args)`
(eitherImpl.hpp:51-55), symmetric to `constructLeft`. -/
def EitherImpl.constructRight {α : Type} (mk : α → R) (a : α) :
    EitherImpl L R × List Event :=
  (⟨EitherSide.right, Storage.rightVal (mk a)⟩, [Event.ctorR])

/-- `EitherImpl::asLeft` (eitherImpl.hpp:146-149): reinterprets the
storage as a `Left_t`.  The returned reference is only meaningful while a
`Left_t` is alive in the storage; any other read is undefined behaviour,
modelled as `none`. -/
def EitherImpl.asLeft (e : EitherImpl L R) : Option L :=
  match e.storage with
  | Storage.leftVal v => some v
  | _ => none

/-- `EitherImpl::asRight` (eitherImpl.hpp:124-127), symmetric to
`asLeft`. -/
def EitherImpl.asRight (e : EitherImpl L R) : Option R :=
  match e.storage with
  | Storage.rightVal v => some v
  | _ => none

/-- The condition of the debug assertion `assert(side == left)` guarding
`asLeft` (eitherImpl.hpp:147). -/
def EitherImpl.assertLeft (e : EitherImpl L R) : Bool :=
  e.side == EitherSide.left

/-- The condition of the debug assertion `assert(side == right)` guarding
`asRight` (eitherImpl.hpp:125). -/
def EitherImpl.assertRight (e : EitherImpl L R) : Bool :=
  e.side == EitherSide.right

/-- Lifetime invariant of a publicly reachable union: the slot named by
the tag holds the one live value. -/
def EitherImpl.valid (e : EitherImpl L R) : Bool :=
  match e.side, e.storage with
  | EitherSide.left, Storage.leftVal _ => true
  | EitherSide.right, Storage.rightVal _ => true
  | _, _ => false

/-- `EitherImpl::cleanup` (eitherImpl.hpp:169-175): selected by the tag,
runs the destructor of the live value via `asLeft().~Left_t()` or
`asRight().~Right_t()`.  Running a destructor on a slot that does not hold
a live value of that type is undefined behaviour (`none`).  Yields the
state after the destructor call (storage dead, tag untouched) together
with the destructor event. -/
def EitherImpl.cleanup (e : EitherImpl L R) :
    Option (EitherImpl L R × List Event) :=
  match e.side, e.storage with
  | EitherSide.left, Storage.leftVal _ =>
      some (⟨EitherSide.left, Storage.dead⟩, [Event.dtorL])
  | EitherSide.right, Storage.rightVal _ =>
      some (⟨EitherSide.right, Storage.dead⟩, [Event.dtorR])
  | _, _ => none

/-- Destructor `~EitherImpl()` (eitherImpl.hpp:60): runs `cleanup()`.
Yields the destructor events; the object itself is gone afterwards. -/
def EitherImpl.destruct (e : EitherImpl L R) : Option (List Event) :=
  (e.cleanup).map Prod.snd

/-- Copy constructor (eitherImpl.hpp:65-71): `side(rhs.side)`, then
copy-constructs the matching slot from `rhs.asLeft()` / `rhs.asRight()`.
Reading a non-live slot of `rhs` is undefined behaviour.  Yields the new
object and the construction event; `rhs` is taken by const reference and
is unchanged. -/
def EitherImpl.copyConstruct (rhs : EitherImpl L R) :
    Option (EitherImpl L R × List Event) :=
  match rhs.side with
  | EitherSide.left =>
      (rhs.asLeft).map fun v =>
        (⟨EitherSide.left, Storage.leftVal v⟩, [Event.ctorL])
  | EitherSide.right =>
      (rhs.asRight).map fun v =>
        (⟨EitherSide.right, Storage.rightVal v⟩, [Event.ctorR])

/-- Move constructor (eitherImpl.hpp:76-82): `side(rhs.side)`, then
move-constructs the matching slot from `std::move(rhs.asLeft())` /
`std::move(rhs.asRight())`.  `rhs.side` is not modified and `rhs`'s live
slot is left holding a moved-from value; the moved-from value of the
contained C++ type is unspecified, so the embedding takes it as functions
`movedL` / `movedR`.  Yields the new object, the state of `rhs` after the
move, and the construction event. -/
def EitherImpl.moveConstruct (movedL : L → L) (movedR : R → R)
    (rhs : EitherImpl L R) :
    Option (EitherImpl L R × EitherImpl L R × List Event) :=
  match rhs.side with
  | EitherSide.left =>
      (rhs.asLeft).map fun v =>
        (⟨EitherSide.left, Storage.leftVal v⟩,
         ⟨EitherSide.left, Storage.leftVal (movedL v)⟩, [Event.ctorL])
  | EitherSide.right =>
      (rhs.asRight).map fun v =>
        (⟨EitherSide.right, Storage.rightVal v⟩,
         ⟨EitherSide.right, Storage.rightVal (movedR v)⟩, [Event.ctorR])

/-- The state of a union whose live value has been moved from: same tag,
slot holding the moved-from residue. -/
def EitherImpl.movedFrom (movedL : L → L) (movedR : R → R)
    (e : EitherImpl L R) : EitherImpl L R :=
  ⟨e.side,
   match e.storage with
   | Storage.dead => Storage.dead
   | Storage.leftVal v => Storage.leftVal (movedL v)
   | Storage.rightVal v => Storage.rightVal (movedR v)⟩

/-- Outcome of an assignment operator: normal completion with the new
state of `*this`, or an exception propagating out of a contained type's
constructor together with the state `*this` was left in at the throw
point.  Both carry the lifetime events that occurred. -/
inductive AssignResult (L R E : Type) where
  | ok (u : EitherImpl L R) (ev : List Event)
  | thrown (exn : E) (u : EitherImpl L R) (ev : List Event)
  deriving DecidableEq

/-- Copy assignment `operator=(const EitherImpl&)` (eitherImpl.hpp:87-99)
for distinct objects (`rhs` not aliasing `*this`): first `cleanup()`
destroys whatever `*this` currently holds, then `side = rhs.side`, then a
placement new copy-constructs `rhs`'s live value.  The contained types'
copy constructors may throw; they are modelled as `copyL` / `copyR`
returning `Except`.  If the copy constructor throws, `*this` keeps the
already-assigned tag and storage in which no value is alive. -/
def EitherImpl.copyAssign (copyL : L → Except E L) (copyR : R → Except E R)
    (self rhs : EitherImpl L R) : Option (AssignResult L R E) :=
  (self.cleanup).bind fun cu =>
    match rhs.side with
    | EitherSide.left =>
        (rhs.asLeft).map fun v =>
          match copyL v with
          | Except.error exn =>
              AssignResult.thrown exn ⟨EitherSide.left, Storage.dead⟩ cu.2
          | Except.ok w =>
              AssignResult.ok ⟨EitherSide.left, Storage.leftVal w⟩
                (cu.2 ++ [Event.ctorL])
    | EitherSide.right =>
        (rhs.asRight).map fun v =>
          match copyR v with
          | Except.error exn =>
              AssignResult.thrown exn ⟨EitherSide.right, Storage.dead⟩ cu.2
          | Except.ok w =>
              AssignResult.ok ⟨EitherSide.right, Storage.rightVal w⟩
                (cu.2 ++ [Event.ctorR])

/-- Move assignment `operator=(EitherImpl&&)` (eitherImpl.hpp:104-116) for
distinct objects: `cleanup()`, then `side = rhs.side`, then a placement
new move-constructs from `rhs`'s live value, leaving that slot of `rhs`
moved-from.  The operator is `noexcept`.  Yields the new `*this`, the new
`rhs`, and the events. -/
def EitherImpl.moveAssign (movedL : L → L) (movedR : R → R)
    (self rhs : EitherImpl L R) :
    Option (EitherImpl L R × EitherImpl L R × List Event) :=
  (self.cleanup).bind fun cu =>
    match rhs.side with
    | EitherSide.left =>
        (rhs.asLeft).map fun v =>
          (⟨EitherSide.left, Storage.leftVal v⟩,
           ⟨EitherSide.left, Storage.leftVal (movedL v)⟩,
           cu.2 ++ [Event.ctorL])
    | EitherSide.right =>
        (rhs.asRight).map fun v =>
          (⟨EitherSide.right, Storage.rightVal v⟩,
           ⟨EitherSide.right, Storage.rightVal (movedR v)⟩,
           cu.2 ++ [Event.ctorR])

/-- Copy assignment `operator=(const EitherImpl&)` (eitherImpl.hpp:87-99)
executed in the aliased case `u = u`, where `rhs` is a reference to
`*this` itself, as in the repository test `TEST(Either, Assignment)`:
`cleanup()` destroys the held value, `side = rhs.side` rewrites the tag
with itself, and the placement new then copy-constructs from
`rhs.asLeft()` / `rhs.asRight()`, which now reads the storage whose value
was just destroyed. -/
def EitherImpl.selfAssign (u : EitherImpl L R) :
    Option (EitherImpl L R × List Event) :=
  (u.cleanup).bind fun cu =>
    match cu.1.side with
    | EitherSide.left =>
        (cu.1.asLeft).map fun v =>
          (⟨EitherSide.left, Storage.leftVal v⟩, cu.2 ++ [Event.ctorL])
    | EitherSide.right =>
        (cu.1.asRight).map fun v =>
          (⟨EitherSide.right, Storage.rightVal v⟩, cu.2 ++ [Event.ctorR])

/-- One round of `TEST(EitherImpl, dtors)`: construct a union on side `s`
(holding `a` or `b`) and immediately destroy it; yields the lifetime
events of the round. -/
def ctorDtorRound (s : EitherSide) (a : L) (b : R) : Option (List Event) :=
  let c : EitherImpl L R × List Event :=
    match s with
    | EitherSide.left => EitherImpl.constructLeft id a
    | EitherSide.right => EitherImpl.constructRight id b
  (c.1.destruct).map fun ev => c.2 ++ ev

/-- Constructs and destroys `n` union instances, each holding a value on
side `s`, collecting all lifetime events. -/
def ctorDtorN (n : Nat) (s : EitherSide) (a : L) (b : R) :
    Option (List Event) :=
  match n with
  | 0 => some []
  | Nat.succ m =>
      (ctorDtorRound s a b).bind fun ev =>
        (ctorDtorN m s a b).map fun rest => ev ++ rest

/-- Number of destructor executions of side `s`'s type in an event
list. -/
def dtorCount (s : EitherSide) : List Event → Nat
  | [] => 0
  | e :: rest => (if e = dtorOf s then 1 else 0) + dtorCount s rest

/-- State of `ma::Either<A, B>` (either.hpp:61-375), which privately
derives from `detail::EitherImpl<A, B>`; the alias `impl` matches
`using impl = detail::EitherImpl<A, B>` (either.hpp:64). -/
structure Either (A B : Type) where
  impl : EitherImpl A B
  deriving DecidableEq

variable {A B C : Type}

/-- Constructor `Either(LeftSide, Args&&... args)` (either.hpp:100-102):
forwards the arguments to `impl(Left, args...)`, which constructs the `A`
slot.  `mk` stands for `A`'s constructor applied to the argument pack. -/
def Either.constructLeft {α : Type} (mk : α → A) (a : α) : Either A B :=
  ⟨(EitherImpl.constructLeft mk a).1⟩

/-- Constructor `Either(RightSide, Args&&... args)` (either.hpp:110-112),
symmetric to `Either.constructLeft`. -/
def Either.constructRight {α : Type} (mk : α → B) (a : α) : Either A B :=
  ⟨(EitherImpl.constructRight mk a).1⟩

/-- Left-tagged `Either` holding `a`, as built by `Either(ma::Left, a)`. -/
def Either.mkLeft (a : A) : Either A B :=
  Either.constructLeft id a

/-- Right-tagged `Either` holding `b`, as built by `Either(ma::Right, b)`. -/
def Either.mkRight (b : B) : Either A B :=
  Either.constructRight id b

/-- `Either::isLeft` (either.hpp:118): `impl::side == detail::left`. -/
def Either.isLeft (e : Either A B) : Bool :=
  e.impl.side == EitherSide.left

/-- `Either::isRight` (either.hpp:124): `impl::side == detail::right`. -/
def Either.isRight (e : Either A B) : Bool :=
  e.impl.side == EitherSide.right

/-- `using impl::asLeft` (either.hpp:126). -/
def Either.asLeft (e : Either A B) : Option A :=
  e.impl.asLeft

/-- `using impl::asRight` (either.hpp:127). -/
def Either.asRight (e : Either A B) : Option B :=
  e.impl.asRight

/-- `Either::map` (const overload, either.hpp:242-249): if right-sided,
returns `Either<A, C>(Right, fb(asRight()))`; otherwise returns
`Either<A, C>(Left, asLeft())`. -/
def Either.map (fb : B → C) (e : Either A B) : Option (Either A C) :=
  if e.isRight then
    (e.asRight).map fun b => Either.mkRight (fb b)
  else
    (e.asLeft).map fun a => Either.mkLeft a

/-- `EitherIterator<A, B>` (either.hpp:391-423): the reference `Mb_` to
the underlying `Either` plus the `start_` flag. -/
structure EitherIterator (A B : Type) where
  Mb : Either A B
  start : Bool
  deriving DecidableEq

/-- The `EitherIterator(Either<A, B>& Mb, bool start)` constructor
(either.hpp:399-400): initializes `start_(start && Mb_.isRight())`. -/
def EitherIterator.make (Mb : Either A B) (start : Bool) :
    EitherIterator A B :=
  ⟨Mb, start && Mb.isRight⟩

/-- `Either::begin` (either.hpp:368): the iterator made with
`start = true`. -/
def Either.begin (e : Either A B) : EitherIterator A B :=
  EitherIterator.make e true

/-- `Either::end` (either.hpp:372): the iterator made with
`start = false`.  Named `endIter` because `end` is a Lean keyword. -/
def Either.endIter (e : Either A B) : EitherIterator A B :=
  EitherIterator.make e false

/-- `EitherIterator::operator!=` (either.hpp:401-403): compares only the
`start_` flags. -/
def EitherIterator.ne (i other : EitherIterator A B) : Bool :=
  i.start != other.start

/-- `EitherIterator::operator*` (either.hpp:405): `Mb_.asRight()`. -/
def EitherIterator.deref (i : EitherIterator A B) : Option B :=
  i.Mb.asRight

/-- Prefix `EitherIterator::operator++` (either.hpp:409-412): sets
`start_ = false`. -/
def EitherIterator.inc (i : EitherIterator A B) : EitherIterator A B :=
  ⟨i.Mb, false⟩

/-- State of `ma::Lazy<A>` (lazy.hpp:74-228): the (mutable) member
`storage_t impl` with `storage_t = Either<std::function<A()>, A>`
(lazy.hpp:226-227). -/
structure Lazy (A : Type) where
  impl : Either (Unit → A) A

/-- Constructor `Lazy(std::function<A()> f) : impl(Left, f)`
(lazy.hpp:85). -/
def Lazy.ofFun (f : Unit → A) : Lazy A :=
  ⟨Either.mkLeft f⟩

/-- Constructor `Lazy(const A& a) : impl(Right, a)` (lazy.hpp:86). -/
def Lazy.ofValue (a : A) : Lazy A :=
  ⟨Either.mkRight a⟩

/-- `Lazy::isEvaluated` (lazy.hpp:106): `impl.isRight()`. -/
def Lazy.isEvaluated (l : Lazy A) : Bool :=
  l.impl.isRight

/-- `Lazy::get` (lazy.hpp:112-117): if `impl.isLeft()`, evaluates the
stored function and overwrites `impl` with `storage_t(Right, result)`,
then returns `impl.asRight()`.  Besides the returned value, the embedding
yields the updated `Lazy` state (the member is `mutable`, so `get`
mutates it) and the number of times the stored function was invoked
during the call. -/
def Lazy.get (l : Lazy A) : Option (A × Lazy A × Nat) :=
  if l.impl.isLeft then
    (l.impl.asLeft).bind fun f =>
      let l1 : Lazy A := ⟨Either.mkRight (f ())⟩
      (l1.impl.asRight).map fun v => (v, l1, 1)
  else
    (l.impl.asRight).map fun v => (v, l, 0)

/-- C1: `Either::map` sends a right-held value `v` to a right-tagged
union holding `f v`, and leaves a left-held value unchanged on the left.
In particular, over `Either<std::string, int>` right-constructed with 5,
mapping squaring twice yields a right-tagged union holding 625, while the
same two maps on a left-held "oops" leave the union left-tagged holding
"oops". -/
theorem either_map_spec :
    (∀ (A B C : Type) (f : B → C) (e : Either A B) (v : B),
        e = Either.mkRight v →
        Either.map f e = some (Either.mkRight (f v)))
    ∧ (∀ (A B C : Type) (f : B → C) (e : Either A B) (a : A),
        e = Either.mkLeft a →
        Either.map f e = some (Either.mkLeft a))
    ∧ (Either.map (fun x : Int => x * x)
          (Either.mkRight 5 : Either String Int)).bind
        (Either.map (fun x : Int => x * x)) = some (Either.mkRight 625)
    ∧ (Either.map (fun x : Int => x * x)
          (Either.mkLeft "oops" : Either String Int)).bind
        (Either.map (fun x : Int => x * x)) = some (Either.mkLeft "oops") := by
  refine ⟨?_, ?_, rfl, rfl⟩
  · intro A B C f e v h
    subst h
    rfl
  · intro A B C f e a h
    subst h
    rfl

/-- Witness for C1 at a concrete input: mapping squaring over a
right-held 5 yields a right-held 25. -/
theorem either_map_spec_witness :
    Either.map (fun x : Int => x * x)
        (Either.mkRight 5 : Either String Int) = some (Either.mkRight 25) :=
  either_map_spec.1 String Int Int (fun x : Int => x * x)
    (Either.mkRight 5) 5 rfl

/-- C2: evaluating the copy assignment in the aliased case `u = u` at the
input of the repository test `TEST(Either, Assignment)` — a right-tagged
`EitherImpl<std::string, std::string>` holding the test's string — shows
the placement-new copy reads the storage whose value `cleanup()` has just
destroyed; the self-assignment is a use of a dead value, not the safe
value-preserving operation the claim and the test state. -/
theorem selfAssign_use_after_destroy :
    EitherImpl.selfAssign
        (⟨EitherSide.right, Storage.rightVal "I wonder whether this works"⟩ :
          EitherImpl String String)
      = none := rfl

/-- C6: construction with the Left selector yields `isLeft()` and not
`isRight()` with the Left slot holding the value constructed from the
forwarded arguments; symmetrically for the Right selector. -/
theorem construct_reports_side (A B α β : Type) (mkA : α → A) (mkB : β → B)
    (a : α) (b : β) :
    (Either.constructLeft mkA a : Either A B).isLeft = true
    ∧ (Either.constructLeft mkA a : Either A B).isRight = false
    ∧ (Either.constructLeft mkA a : Either A B).impl.storage
        = Storage.leftVal (mkA a)
    ∧ (Either.constructRight mkB b : Either A B).isRight = true
    ∧ (Either.constructRight mkB b : Either A B).isLeft = false
    ∧ (Either.constructRight mkB b : Either A B).impl.storage
        = Storage.rightVal (mkB b) :=
  ⟨rfl, rfl, rfl, rfl, rfl, rfl⟩

/-- C9: iteration over an `Either` is a zero-or-one-element sequence: for
a left-sided either, `begin()` equals `end()` (so `operator!=` is false
and a loop body runs zero times); for a right-sided either, `begin()`
differs from `end()`, dereferencing it yields the stored right value, and
one increment makes it equal to `end()`. -/
theorem iteration_zero_or_one (A B : Type) (e : Either A B) :
    (∀ a : A, e = Either.mkLeft a →
        Either.begin e = Either.endIter e
        ∧ EitherIterator.ne (Either.begin e) (Either.endIter e) = false)
    ∧ (∀ v : B, e = Either.mkRight v →
        EitherIterator.ne (Either.begin e) (Either.endIter e) = true
        ∧ EitherIterator.deref (Either.begin e) = some v
        ∧ EitherIterator.inc (Either.begin e) = Either.endIter e
        ∧ EitherIterator.ne (EitherIterator.inc (Either.begin e))
            (Either.endIter e) = false) := by
  constructor
  · intro a h
    subst h
    exact ⟨rfl, rfl⟩
  · intro v h
    subst h
    exact ⟨rfl, rfl, rfl, rfl⟩

/-- Witness for C9 at a concrete input: over a right-held 9 the iterator
from `begin()` dereferences to 9. -/
theorem iteration_zero_or_one_witness :
    EitherIterator.deref
        (Either.begin (Either.mkRight 9 : Either String Int)) = some 9 :=
  ((iteration_zero_or_one String Int (Either.mkRight 9)).2 9 rfl).2.1

/-- C10: a `Lazy<A>` built from a function `f` is not evaluated at
construction; the first `get()` invokes `f` exactly once, stores the
result and returns it, after which `isEvaluated()` is true; every `get()`
on an evaluated `Lazy` returns the stored value with zero further
invocations of `f`. -/
theorem lazy_memoizes (A : Type) (f : Unit → A) :
    (Lazy.ofFun f).isEvaluated = false
    ∧ Lazy.get (Lazy.ofFun f) = some (f (), Lazy.ofValue (f ()), 1)
    ∧ (Lazy.ofValue (f ())).isEvaluated = true
    ∧ (∀ a : A, Lazy.get (Lazy.ofValue a) = some (a, Lazy.ofValue a, 0)
        ∧ (Lazy.ofValue a).isEvaluated = true) :=
  ⟨rfl, rfl, rfl, fun _ => ⟨rfl, rfl⟩⟩

/-- C3: for distinct unions, copy assignment and move assignment first
destroy the live value of the target — also when both operands are tagged
on the same side — then construct from `rhs`'s live value and set the tag
to `rhs`'s tag, so that afterwards the target duplicates `rhs`'s tag and
held value.  The event list records the destructor strictly before the
constructor. -/
theorem copyMoveAssign_duplicates (L R E : Type) (movedL : L → L)
    (movedR : R → R) (u rhs : EitherImpl L R)
    (hu : EitherImpl.valid u = true) (hrhs : EitherImpl.valid rhs = true) :
    EitherImpl.copyAssign (fun v => (Except.ok v : Except E L))
        (fun v => (Except.ok v : Except E R)) u rhs
      = some (AssignResult.ok rhs [dtorOf u.side, ctorOf rhs.side])
    ∧ EitherImpl.moveAssign movedL movedR u rhs
      = some (rhs, EitherImpl.movedFrom movedL movedR rhs,
          [dtorOf u.side, ctorOf rhs.side]) := by
  obtain ⟨us, ust⟩ := u
  obtain ⟨rs, rst⟩ := rhs
  cases us <;> cases ust <;> cases rs <;> cases rst <;>
    first
      | exact ⟨rfl, rfl⟩
      | exact Bool.noConfusion hu
      | exact Bool.noConfusion hrhs

/-- Witness for C3 at a concrete input: assigning a right-held 2 into a
left-held 1 destroys the left value, then copies the right value. -/
theorem copyMoveAssign_duplicates_witness :
    EitherImpl.copyAssign (fun v => (Except.ok v : Except String Int))
        (fun v => (Except.ok v : Except String Int))
        ⟨EitherSide.left, Storage.leftVal 1⟩
        ⟨EitherSide.right, Storage.rightVal 2⟩
      = some (AssignResult.ok ⟨EitherSide.right, Storage.rightVal 2⟩
          [Event.dtorL, Event.ctorR])
    ∧ EitherImpl.moveAssign (fun _ : Int => 0) (fun _ : Int => 0)
        ⟨EitherSide.left, Storage.leftVal 1⟩
        ⟨EitherSide.right, Storage.rightVal 2⟩
      = some (⟨EitherSide.right, Storage.rightVal 2⟩,
          ⟨EitherSide.right, Storage.rightVal 0⟩,
          [Event.dtorL, Event.ctorR]) :=
  copyMoveAssign_duplicates Int Int String (fun _ => 0) (fun _ => 0)
    ⟨EitherSide.left, Storage.leftVal 1⟩
    ⟨EitherSide.right, Storage.rightVal 2⟩ rfl rfl

/-- C4: assignment is not atomic on failure: when the copy construction
of the new value from `rhs`'s live value throws, the old value of the
target has already been destroyed (the trace holds exactly its destructor
event and no constructor event), and the target is left with the new tag
but with no slot validly constructed. -/
theorem assign_not_atomic (L R E : Type) (copyL : L → Except E L)
    (copyR : R → Except E R) (u rhs : EitherImpl L R) (exn : E)
    (hu : EitherImpl.valid u = true) :
    (∀ v : L, rhs = ⟨EitherSide.left, Storage.leftVal v⟩ →
        copyL v = Except.error exn →
        EitherImpl.copyAssign copyL copyR u rhs
          = some (AssignResult.thrown exn ⟨EitherSide.left, Storage.dead⟩
              [dtorOf u.side]))
    ∧ (∀ v : R, rhs = ⟨EitherSide.right, Storage.rightVal v⟩ →
        copyR v = Except.error exn →
        EitherImpl.copyAssign copyL copyR u rhs
          = some (AssignResult.thrown exn ⟨EitherSide.right, Storage.dead⟩
              [dtorOf u.side])) := by
  obtain ⟨us, ust⟩ := u
  constructor
  · intro v h hc
    subst h
    cases us <;> cases ust <;>
      first
        | exact Bool.noConfusion hu
        | (simp only [EitherImpl.copyAssign, EitherImpl.cleanup,
            EitherImpl.asLeft, EitherImpl.asRight, Option.some_bind,
            Option.map_some', hc, dtorOf])
  · intro v h hc
    subst h
    cases us <;> cases ust <;>
      first
        | exact Bool.noConfusion hu
        | (simp only [EitherImpl.copyAssign, EitherImpl.cleanup,
            EitherImpl.asLeft, EitherImpl.asRight, Option.some_bind,
            Option.map_some', hc, dtorOf])

/-- Witness for C4 at a concrete input: a throwing copy leaves the target
with dead storage after the old value's destructor already ran. -/
theorem assign_not_atomic_witness :
    EitherImpl.copyAssign (fun _ : Int => (Except.error "boom" : Except String Int))
        (fun v : Int => Except.ok v)
        ⟨EitherSide.right, Storage.rightVal 7⟩
        ⟨EitherSide.left, Storage.leftVal 2⟩
      = some (AssignResult.thrown "boom" ⟨EitherSide.left, Storage.dead⟩
          [Event.dtorR]) :=
  (assign_not_atomic Int Int String
      (fun _ => Except.error "boom") (fun v => Except.ok v)
      ⟨EitherSide.right, Storage.rightVal 7⟩
      ⟨EitherSide.left, Storage.leftVal 2⟩ "boom" rfl).1 2 rfl rfl

/-- C5: copy construction duplicates the tag and the held value and
leaves the source unchanged; move construction yields a union with the
source's tag holding the source's value, while the source keeps its tag,
now holds the moved-from residue, and remains a valid (destructible)
union. -/
theorem copyMoveConstruct_roundTrip (L R : Type) (movedL : L → L)
    (movedR : R → R) (rhs : EitherImpl L R)
    (h : EitherImpl.valid rhs = true) :
    EitherImpl.copyConstruct rhs = some (rhs, [ctorOf rhs.side])
    ∧ EitherImpl.moveConstruct movedL movedR rhs
        = some (rhs, EitherImpl.movedFrom movedL movedR rhs,
            [ctorOf rhs.side])
    ∧ (EitherImpl.movedFrom movedL movedR rhs).side = rhs.side
    ∧ EitherImpl.valid (EitherImpl.movedFrom movedL movedR rhs) = true := by
  obtain ⟨s, st⟩ := rhs
  cases s <;> cases st <;>
    first
      | exact ⟨rfl, rfl, rfl, rfl⟩
      | exact Bool.noConfusion h

/-- Witness for C5 at a concrete input: copy construction from a
left-held 6 yields an equal left-held 6. -/
theorem copyMoveConstruct_roundTrip_witness :
    EitherImpl.copyConstruct
        (⟨EitherSide.left, Storage.leftVal 6⟩ : EitherImpl Int Int)
      = some (⟨EitherSide.left, Storage.leftVal 6⟩, [Event.ctorL]) :=
  (copyMoveConstruct_roundTrip Int Int id id
      ⟨EitherSide.left, Storage.leftVal 6⟩ rfl).1

/-- C7: when the tag is Left, `asLeft()` reads the stored Left value and
its debug assertion `side == left` holds while `asRight()`'s assertion
fails; symmetrically for Right; the assertion of a side fails exactly
when the tag does not match that side. -/
theorem accessor_contract (L R : Type) (e : EitherImpl L R) :
    (∀ v : L, e = ⟨EitherSide.left, Storage.leftVal v⟩ →
        EitherImpl.asLeft e = some v ∧ EitherImpl.assertLeft e = true
        ∧ EitherImpl.assertRight e = false)
    ∧ (∀ v : R, e = ⟨EitherSide.right, Storage.rightVal v⟩ →
        EitherImpl.asRight e = some v ∧ EitherImpl.assertRight e = true
        ∧ EitherImpl.assertLeft e = false)
    ∧ (EitherImpl.assertLeft e = false ↔ ¬ e.side = EitherSide.left)
    ∧ (EitherImpl.assertRight e = false ↔ ¬ e.side = EitherSide.right) := by
  refine ⟨?_, ?_, ?_, ?_⟩
  · intro v h
    subst h
    exact ⟨rfl, rfl, rfl⟩
  · intro v h
    subst h
    exact ⟨rfl, rfl, rfl⟩
  · obtain ⟨s, st⟩ := e
    cases s
    · exact ⟨fun hf => Bool.noConfusion hf, fun hn => absurd rfl hn⟩
    · exact ⟨fun _ hh => EitherSide.noConfusion hh, fun _ => rfl⟩
  · obtain ⟨s, st⟩ := e
    cases s
    · exact ⟨fun _ hh => EitherSide.noConfusion hh, fun _ => rfl⟩
    · exact ⟨fun hf => Bool.noConfusion hf, fun hn => absurd rfl hn⟩

/-- Witness for C7 at a concrete input: on a left-held 7, `asLeft()`
reads 7, its assertion holds, and `asRight()`'s assertion fails. -/
theorem accessor_contract_witness :
    EitherImpl.asLeft
        (⟨EitherSide.left, Storage.leftVal 7⟩ : EitherImpl Int Int) = some 7
    ∧ EitherImpl.assertLeft
        (⟨EitherSide.left, Storage.leftVal 7⟩ : EitherImpl Int Int) = true
    ∧ EitherImpl.assertRight
        (⟨EitherSide.left, Storage.leftVal 7⟩ : EitherImpl Int Int) = false :=
  (accessor_contract Int Int ⟨EitherSide.left, Storage.leftVal 7⟩).1 7 rfl

/-- One construct-and-destroy round produces exactly one construction
and one destruction event of side `s`. -/
theorem ctorDtorRound_eq (L R : Type) (a : L) (b : R) (s : EitherSide) :
    ctorDtorRound s a b = some [ctorOf s, dtorOf s] := by
  cases s <;> rfl

/-- The event trace of `n` construct-and-destroy rounds on side `s`. -/
theorem ctorDtorN_eq (L R : Type) (a : L) (b : R) (s : EitherSide)
    (n : Nat) :
    ctorDtorN n s a b
      = some (List.flatten (List.replicate n [ctorOf s, dtorOf s])) := by
  induction n with
  | zero => rfl
  | succ m ih =>
      simp [ctorDtorN, ctorDtorRound_eq, ih, List.replicate_succ]

/-- In the trace of `n` rounds on side `s`, side `s`'s destructor runs
`n` times. -/
theorem dtorCount_rounds_same (s : EitherSide) (n : Nat) :
    dtorCount s (List.flatten (List.replicate n [ctorOf s, dtorOf s])) = n := by
  induction n with
  | zero => rfl
  | succ m ih =>
      cases s <;>
        simp_all [dtorCount, ctorOf, dtorOf, List.replicate_succ,
          Nat.add_comm]

/-- In the trace of `n` rounds on side `s`, the other side's destructor
never runs. -/
theorem dtorCount_rounds_other (s : EitherSide) (n : Nat) :
    dtorCount (otherSide s)
      (List.flatten (List.replicate n [ctorOf s, dtorOf s])) = 0 := by
  induction n with
  | zero => rfl
  | succ m ih =>
      cases s <;>
        simp_all [dtorCount, ctorOf, dtorOf, otherSide, List.replicate_succ]

/-- C8: constructing and destroying `n` union instances holding a value
on side `s` runs side `s`'s destructor exactly `n` times and the other
side's destructor zero times; destruction of a valid union runs exactly
the live slot's destructor, selected by the tag, and never an event of
the inactive side. -/
theorem dtor_counts (L R : Type) (a : L) (b : R) (n : Nat)
    (s : EitherSide) :
    (ctorDtorN n s a b).map (dtorCount s) = some n
    ∧ (ctorDtorN n s a b).map (dtorCount (otherSide s)) = some 0
    ∧ (∀ e : EitherImpl L R, EitherImpl.valid e = true →
        EitherImpl.destruct e = some [dtorOf e.side]) := by
  refine ⟨?_, ?_, ?_⟩
  · rw [ctorDtorN_eq]
    simp [dtorCount_rounds_same]
  · rw [ctorDtorN_eq]
    simp [dtorCount_rounds_other]
  · intro e he
    obtain ⟨es, est⟩ := e
    cases es <;> cases est <;>
      first
        | rfl
        | exact Bool.noConfusion he

/-- Witness for C8 at a concrete input: destroying a valid left-held
union runs exactly the left destructor once. -/
theorem dtor_counts_witness :
    EitherImpl.destruct
        (⟨EitherSide.left, Storage.leftVal 3⟩ : EitherImpl Int Int)
      = some [Event.dtorL] :=
  (dtor_counts Int Int 0 0 1 EitherSide.left).2.2
    ⟨EitherSide.left, Storage.leftVal 3⟩ rfl

end Marjoram
